import Mathlib

/-!
Shallow embedding of `src/lib/DownloadCovidDatasets.py`.

The Python class `DownloadCovidDatasets` keeps mutable class attributes
(the Parana URL template and the default datasets directory) and talks to
the filesystem and the network.  The embedding makes that ambient state an
explicit `State` record: `dirs` and `files` model the filesystem
(`os.path.isdir`, `os.path.isfile`, `os.mkdir`), `requests` logs every
`urlretrieve` call (most recent first), and `warnings` counts the
kind-validation warning printed by `downloadHopkinsDataset`.  Informational
prints are not modelled.  Python `str.replace` is modelled by `replaceAll`
on character lists (identical behaviour for the non-empty patterns used in
the source), and `datetime` values by the `DateTime` record together with
the comparison, `replace`, `strftime` and one-day subtraction operations
the source uses.
-/

/-- Model of Python `str.replace` on character lists: scan left to right,
replacing every non-overlapping occurrence of `pat` by `rep`.  (For the
empty pattern Python inserts `rep` between all characters; this model
leaves the string unchanged instead.  Every pattern used by the source is
non-empty, so the two agree on all modelled calls.) -/
def replaceAll (pat rep : List Char) : List Char → List Char
  | [] => []
  | c :: cs =>
    if !pat.isEmpty && pat.isPrefixOf (c :: cs) then
      rep ++ replaceAll pat rep (List.drop (pat.length - 1) cs)
    else
      c :: replaceAll pat rep cs
termination_by l => l.length
decreasing_by
  · simp only [List.length_drop, List.length_cons]
    omega
  · simp

/-- All suffixes of a character list, longest first. -/
def suffixesOf : List Char → List (List Char)
  | [] => [[]]
  | c :: cs => (c :: cs) :: suffixesOf cs

/-- Whether `pat` occurs as a contiguous substring of `l`
(Python `pat in l`). -/
def listContains (pat l : List Char) : Bool :=
  (suffixesOf l).any fun t => pat.isPrefixOf t

/-- Model of Python `s.replace(pat, rep)` at the `String` level. -/
def pyReplace (s pat rep : String) : String :=
  ⟨replaceAll pat.data rep.data s.data⟩

/-- Model of Python `s.lower()` (ASCII-adequate for the kinds used). -/
def pyLower (s : String) : String :=
  ⟨s.data.map Char.toLower⟩

theorem replaceAll_nil (pat rep : List Char) : replaceAll pat rep [] = [] := by
  simp [replaceAll]

theorem replaceAll_cons_neg (pat rep : List Char) (c : Char) (cs : List Char)
    (h : pat.isPrefixOf (c :: cs) = false) :
    replaceAll pat rep (c :: cs) = c :: replaceAll pat rep cs := by
  rw [replaceAll]
  simp [h]

theorem isPrefixOf_self_append (pat rest : List Char) :
    pat.isPrefixOf (pat ++ rest) = true := by
  induction pat with
  | nil => simp [List.isPrefixOf]
  | cons p ps ih => simp [List.isPrefixOf, ih]

theorem replaceAll_head_match (p : Char) (ps rep rest : List Char) :
    replaceAll (p :: ps) rep ((p :: ps) ++ rest) =
      rep ++ replaceAll (p :: ps) rep rest := by
  rw [List.cons_append, replaceAll]
  rw [show ((p :: ps).isPrefixOf (p :: (ps ++ rest))) = true from
    isPrefixOf_self_append (p :: ps) rest]
  simp [List.drop_left]

theorem replaceAll_append_of_no_match (pat rep a b : List Char)
    (h : ∀ i < a.length, pat.isPrefixOf (a.drop i ++ b) = false) :
    replaceAll pat rep (a ++ b) = a ++ replaceAll pat rep b := by
  induction a with
  | nil => simp
  | cons c a' ih =>
    have h0 : pat.isPrefixOf (c :: (a' ++ b)) = false := by
      have := h 0 (by simp)
      simpa using this
    rw [List.cons_append, replaceAll_cons_neg _ _ _ _ h0]
    rw [ih fun i hi => by
      have := h (i + 1) (by simpa using Nat.succ_lt_succ hi)
      simpa using this]
    simp

theorem listContains_false_cons (pat : List Char) (c : Char) (cs : List Char)
    (h : listContains pat (c :: cs) = false) :
    pat.isPrefixOf (c :: cs) = false ∧ listContains pat cs = false := by
  simp only [listContains, suffixesOf, List.any_cons, Bool.or_eq_false_iff] at h
  exact ⟨h.1, by simp [listContains, h.2]⟩

theorem replaceAll_of_listContains_false (pat rep l : List Char)
    (h : listContains pat l = false) :
    replaceAll pat rep l = l := by
  induction l with
  | nil => simp [replaceAll]
  | cons c cs ih =>
    obtain ⟨h1, h2⟩ := listContains_false_cons pat c cs h
    rw [replaceAll_cons_neg _ _ _ _ h1, ih h2]

theorem pyReplace_eq_self (s pat rep : String)
    (h : listContains pat.data s.data = false) :
    pyReplace s pat rep = s := by
  unfold pyReplace
  rw [replaceAll_of_listContains_false _ _ _ h]

theorem no_match_of_no_hash (ps a b : List Char)
    (ha : ∀ c ∈ a, c ≠ '#') :
    ∀ i < a.length, ('#' :: ps).isPrefixOf (a.drop i ++ b) = false := by
  induction a with
  | nil => intro i hi; simp at hi
  | cons c a' ih =>
    intro i hi
    match i with
    | 0 =>
      have hc : c ≠ '#' := ha c (List.mem_cons_self c a')
      simp [List.isPrefixOf, beq_eq_false_iff_ne, Ne.symm hc]
    | i + 1 =>
      have := ih (fun d hd => ha d (List.mem_cons_of_mem c hd)) i
        (by simpa using Nat.lt_of_succ_lt_succ hi)
      simpa using this

theorem listContains_false_of_no_hash (ps l : List Char)
    (hl : ∀ c ∈ l, c ≠ '#') :
    listContains ('#' :: ps) l = false := by
  induction l with
  | nil => simp [listContains, suffixesOf, List.isPrefixOf]
  | cons c cs ih =>
    have hc : c ≠ '#' := hl c (List.mem_cons_self c cs)
    simp only [listContains, suffixesOf, List.any_cons, Bool.or_eq_false_iff]
    constructor
    · simp [List.isPrefixOf, beq_eq_false_iff_ne, Ne.symm hc]
    · have := ih fun d hd => hl d (List.mem_cons_of_mem c hd)
      simpa [listContains] using this

/-- Calendar date (proleptic Gregorian), as carried by Python `datetime`. -/
structure Date where
  year : Nat
  month : Nat
  day : Nat
deriving DecidableEq, Repr

/-- Python `datetime.datetime` value: a date plus time-of-day fields. -/
structure DateTime where
  date : Date
  hour : Nat
  minute : Nat
  second : Nat
  microsecond : Nat
deriving DecidableEq, Repr

/-- Python `dt.replace(hour=h, minute=m, second=s, microsecond=us)`:
keeps the date, overrides the time-of-day fields. -/
def DateTime.replace (dt : DateTime) (h m s us : Nat) : DateTime :=
  { dt with hour := h, minute := m, second := s, microsecond := us }

/-- Python `datetime` comparison `a >= b`: lexicographic on
(year, month, day, hour, minute, second, microsecond). -/
def DateTime.ge (a b : DateTime) : Bool :=
  if a.date.year = b.date.year then
    if a.date.month = b.date.month then
      if a.date.day = b.date.day then
        if a.hour = b.hour then
          if a.minute = b.minute then
            if a.second = b.second then
              decide (a.microsecond ≥ b.microsecond)
            else decide (a.second > b.second)
          else decide (a.minute > b.minute)
        else decide (a.hour > b.hour)
      else decide (a.date.day > b.date.day)
    else decide (a.date.month > b.date.month)
  else decide (a.date.year > b.date.year)

/-- Gregorian leap-year rule, as implemented by Python `datetime`. -/
def isLeapYear (y : Nat) : Bool :=
  (y % 4 == 0 && y % 100 != 0) || y % 400 == 0

/-- Number of days in a month of a given year. -/
def daysInMonth (y m : Nat) : Nat :=
  if m = 2 then (if isLeapYear y then 29 else 28)
  else if m = 4 ∨ m = 6 ∨ m = 9 ∨ m = 11 then 30
  else 31

/-- The calendar date one day earlier (Python `date - timedelta(days=1)`). -/
def Date.pred : Date → Date
  | ⟨y, m, d⟩ =>
    if 1 < d then ⟨y, m, d - 1⟩
    else if 1 < m then ⟨y, m - 1, daysInMonth y (m - 1)⟩
    else ⟨y - 1, 12, 31⟩

/-- Python `now - timedelta(days=1)`: one day earlier, same time of day. -/
def DateTime.subDay (dt : DateTime) : DateTime :=
  { dt with date := dt.date.pred }

/-- Zero-padded two-digit decimal rendering (strftime `%d`, `%m`). -/
def pad2 (n : Nat) : String :=
  if n < 10 then "0" ++ toString n else toString n

/-- Zero-padded four-digit decimal rendering (strftime `%Y`). -/
def pad4 (n : Nat) : String :=
  if n < 10 then "000" ++ toString n
  else if n < 100 then "00" ++ toString n
  else if n < 1000 then "0" ++ toString n
  else toString n

/-- Python `now.strftime('%Y-%m')`. -/
def strftimeYM (d : Date) : String :=
  pad4 d.year ++ "-" ++ pad2 d.month

/-- Python `now.strftime('%d_%m_%Y')`. -/
def strftimeDMY (d : Date) : String :=
  pad2 d.day ++ "_" ++ pad2 d.month ++ "_" ++ pad4 d.year

/-- Python `tDate.split('/')` for a single-character separator. -/
def splitOnChar (sep : Char) : List Char → List (List Char)
  | [] => [[]]
  | c :: cs =>
    if c = sep then [] :: splitOnChar sep cs
    else
      match splitOnChar sep cs with
      | [] => [[c]]
      | t :: ts => (c :: t) :: ts

/-- Python `s.split(sep)` at the `String` level (single-character `sep`). -/
def pySplit (s : String) (sep : Char) : List String :=
  (splitOnChar sep s.data).map fun l => ⟨l⟩

/-- Mutable class attributes of `DownloadCovidDatasets` together with the
ambient filesystem and network, as one explicit state record.  `requests`
logs the URL of every `urlretrieve` call, most recent first; `warnings`
counts the kind-validation message printed by `downloadHopkinsDataset`. -/
structure State where
  urlParanaDataset : String
  datasetsDir : String
  dirs : List String
  files : List String
  requests : List String
  warnings : Nat
deriving DecidableEq, Repr

/-- Class attribute `__urlHopkinsDatasets` (never mutated by the source). -/
def urlHopkinsDatasets : String :=
  "https://raw.githubusercontent.com/CSSEGISandData/COVID-19/master/csse_covid_19_data/csse_covid_19_time_series/time_series_covid19_#VAR1#_global.csv"

/-- Initial value of the mutable class attribute `__urlParanaDataset`. -/
def urlParanaDatasetInitial : String :=
  "https://www.saude.pr.gov.br/sites/default/arquivos_restritos/files/documento/#VAR1#/informe_epidemiologico_#VAR2#_geral.csv"

/-- Class attribute `__urlOwnDatasets` (never mutated by the source). -/
def urlOwnDatasets : String :=
  "https://raw.githubusercontent.com/FlavioLucasFer/datascience/master/datasets/#VAR1#.csv"

/-- Initial value of the mutable class attribute `__datasetsDir`. -/
def datasetsDirInitial : String := "./datasets-covid"

/-- Fresh process state: pristine class attributes, empty filesystem,
no network calls, no warnings. -/
def initState : State :=
  { urlParanaDataset := urlParanaDatasetInitial
    datasetsDir := datasetsDirInitial
    dirs := []
    files := []
    requests := []
    warnings := 0 }

/-- `__getUrlHopkinsDatasets` (line 32). -/
def getUrlHopkinsDatasets : String := urlHopkinsDatasets

/-- `getUrlHopkinsGlobalConfirmedCases` (line 49). -/
def getUrlHopkinsGlobalConfirmedCases : String :=
  pyReplace getUrlHopkinsDatasets "#VAR1#" "confirmed"

/-- `getUrlHopkinsGlobalDeaths` (line 64). -/
def getUrlHopkinsGlobalDeaths : String :=
  pyReplace getUrlHopkinsDatasets "#VAR1#" "deaths"

/-- `getUrlHopkinsGlobalRecovered` (line 79). -/
def getUrlHopkinsGlobalRecovered : String :=
  pyReplace getUrlHopkinsDatasets "#VAR1#" "recovered"

/-- `getUrlParanaDataset` (line 94): reads the mutable class attribute. -/
def getUrlParanaDataset (s : State) : String := s.urlParanaDataset

/-- `__setUrlParanaDataset` (line 112): destructively replaces the
placeholders inside the stored class attribute. -/
def setUrlParanaDataset (s : State) (yearAndMonth targetDate : String) : State :=
  { s with urlParanaDataset :=
      pyReplace (pyReplace s.urlParanaDataset "#VAR1#" yearAndMonth) "#VAR2#" targetDate }

/-- `__getUrlOwnDatasets` (line 130). -/
def getUrlOwnDatasets : String := urlOwnDatasets

/-- `getDatasetsDir` (line 147). -/
def getDatasetsDir (s : State) : String := s.datasetsDir

/-- `setDatasetsDir` (line 161). -/
def setDatasetsDir (s : State) (datasetsDir : String) : State :=
  { s with datasetsDir := datasetsDir }

/-- `checkDatasetDir` (line 177): falsy (empty) argument falls back to the
class default directory; then `os.path.isdir`. -/
def checkDatasetDir (s : State) (datasetsDir : String) : Bool :=
  let d := if datasetsDir ≠ "" then datasetsDir else s.datasetsDir
  s.dirs.contains d

/-- `checkDataset` (line 198): falsy (empty) directory falls back to the
class default directory; then `os.path.isfile` on `f'{dir}/{name}'`. -/
def checkDataset (s : State) (datasetName datasetsDir : String) : Bool :=
  let d := if datasetsDir ≠ "" then datasetsDir else s.datasetsDir
  s.files.contains (d ++ "/" ++ datasetName)

/-- `downloadDataset` (line 223).  `os.mkdir` is modelled as recording the
directory; `urlretrieve` as logging the URL and recording the file.
Failure modes of the real primitives (missing parent directory, network
errors) are outside the model. -/
def downloadDataset (s : State) (url dirToSave csvFileName : String)
    (overwrite : Bool) : String × State :=
  let datasetPath := dirToSave ++ "/" ++ csvFileName
  let s1 := if !checkDatasetDir s dirToSave then
              { s with dirs := dirToSave :: s.dirs }
            else s
  let s2 := if !checkDataset s1 csvFileName dirToSave || overwrite then
              { s1 with requests := url :: s1.requests,
                        files := datasetPath :: s1.files }
            else s1
  (datasetPath, s2)

/-- Date-fragment resolution of `downloadParanaDataset` (lines 286-304).
With an explicit `tDate` (Python truthiness: non-empty), split on `'/'`
and build the `'%Y-%m'`-style and `'%d_%m_%Y'`-style fragments from its
parts; otherwise compare the current moment against the fixed 15:00
cutoff and format today (at or after the cutoff) or yesterday (before
it).  Python raises `IndexError` on a `tDate` with fewer than three
`'/'`-separated parts; the model reads the missing parts as `""`. -/
def resolveParanaFragments (now : DateTime) (tDate : String) : String × String :=
  if tDate ≠ "" then
    let date := pySplit tDate '/'
    ((date.getD 2 "") ++ "-" ++ (date.getD 1 ""),
     (date.getD 0 "") ++ "_" ++ (date.getD 1 "") ++ "_" ++ (date.getD 2 ""))
  else
    let currentTime := now.replace now.hour now.minute now.second now.microsecond
    let paranaDatasetUpdateHour := now.replace 15 0 0 0
    let yearAndMonth := strftimeYM now.date
    if currentTime.ge paranaDatasetUpdateHour then
      (yearAndMonth, strftimeDMY now.date)
    else
      (yearAndMonth, strftimeDMY now.subDay.date)

/-- `downloadParanaDataset` (line 264).  `now` stands for the ambient
`datetime.now()`. -/
def downloadParanaDataset (s : State) (now : DateTime)
    (csvFileName tDate dirToSave : String)
    (csvFileNameWithTDate overwrite : Bool) : String × State :=
  let dirToSave := if dirToSave ≠ "" then dirToSave else getDatasetsDir s
  let fragments := resolveParanaFragments now tDate
  let targetDate := fragments.2
  let s1 := setUrlParanaDataset s fragments.1 fragments.2
  let csvFileName :=
    if csvFileNameWithTDate then csvFileName ++ "_" ++ targetDate ++ ".csv"
    else csvFileName ++ ".csv"
  downloadDataset s1 (getUrlParanaDataset s1) dirToSave csvFileName overwrite

/-- Python default for the `csvFileName` argument of
`downloadParanaDataset`. -/
def defaultParanaCsvFileName : String := "daily_newsletter_covid_parana"

/-- `downloadHopkinsDataset` (line 316).  `now` stands for the ambient
`datetime.now()`.  The unrecognized-kind branch only prints a message
(counted in `warnings`) and continues. -/
def downloadHopkinsDataset (s : State) (now : DateTime)
    (csvFileName kind dirToSave : String)
    (csvFileNameWithTDate overwrite : Bool) : String × State :=
  let dirToSave := if dirToSave ≠ "" then dirToSave else getDatasetsDir s
  let named : String × State :=
    if pyLower kind = "confirmed" then (csvFileName ++ "confirmed_cases", s)
    else if pyLower kind = "deaths" then (csvFileName ++ "deaths", s)
    else if pyLower kind = "recovered" then (csvFileName ++ "recovered", s)
    else (csvFileName, { s with warnings := s.warnings + 1 })
  let csvFileName :=
    if csvFileNameWithTDate then named.1 ++ "_" ++ strftimeDMY now.date ++ ".csv"
    else named.1 ++ ".csv"
  let url := pyReplace getUrlHopkinsGlobalConfirmedCases "#VAR1#" kind
  downloadDataset named.2 url dirToSave csvFileName overwrite

/-- Python default for the `csvFileName` argument of
`downloadHopkinsDataset`. -/
def defaultHopkinsCsvFileName : String := "hopkins_global_"

/-- `downloadParanaCitiesWithIBGECodeDataset` (line 361). -/
def downloadParanaCitiesWithIBGECodeDataset (s : State)
    (csvFileName dirToSave : String) (overwrite : Bool) : String × State :=
  let dirToSave := if dirToSave ≠ "" then dirToSave else getDatasetsDir s
  let url := pyReplace getUrlOwnDatasets "#VAR1#" "parana_cities_with_ibge_code"
  downloadDataset s url dirToSave csvFileName overwrite

/-- Python default for the `csvFileName` argument of
`downloadParanaCitiesWithIBGECodeDataset`. -/
def defaultParanaCitiesCsvFileName : String := "parana_cities_with_ibge_code.csv"

/-- `downloadParanavaiRegionCitiesWithIBGECodeDataset` (line 385): its body
substitutes the same identifier `parana_cities_with_ibge_code` into the
same template as `downloadParanaCitiesWithIBGECodeDataset`. -/
def downloadParanavaiRegionCitiesWithIBGECodeDataset (s : State)
    (csvFileName dirToSave : String) (overwrite : Bool) : String × State :=
  let dirToSave := if dirToSave ≠ "" then dirToSave else getDatasetsDir s
  let url := pyReplace getUrlOwnDatasets "#VAR1#" "parana_cities_with_ibge_code"
  downloadDataset s url dirToSave csvFileName overwrite

/-- Python default for the `csvFileName` argument of
`downloadParanavaiRegionCitiesWithIBGECodeDataset`. -/
def defaultParanavaiRegionCitiesCsvFileName : String :=
  "paranavai_region_cities_with_ibge_code.csv"

/-- Part of the Hopkins URL template before the `#VAR1#` placeholder. -/
def preH : String := "https://raw.githubusercontent.com/CSSEGISandData/COVID-19/master/csse_covid_19_data/csse_covid_19_time_series/time_series_covid19_"

/-- Part of the Hopkins URL template after the `#VAR1#` placeholder. -/
def sufH : String := "_global.csv"

set_option maxRecDepth 4096 in
theorem hopkins_splice (rep : String) :
    (pyReplace urlHopkinsDatasets "#VAR1#" rep).data =
      preH.data ++ rep.data ++ sufH.data := by
  have hd : urlHopkinsDatasets.data = preH.data ++ ("#VAR1#".data ++ sufH.data) := rfl
  unfold pyReplace
  rw [hd]
  rw [replaceAll_append_of_no_match _ _ _ _ (by decide)]
  rw [show ("#VAR1#".data : List Char) = '#' :: "VAR1#".data from rfl]
  rw [replaceAll_head_match]
  rw [replaceAll_of_listContains_false _ _ _ (by decide)]
  simp

set_option maxRecDepth 4096 in
theorem hopkins_confirmed_eval :
    getUrlHopkinsGlobalConfirmedCases =
      "https://raw.githubusercontent.com/CSSEGISandData/COVID-19/master/csse_covid_19_data/csse_covid_19_time_series/time_series_covid19_confirmed_global.csv" := by
  apply String.ext
  rw [show getUrlHopkinsGlobalConfirmedCases =
        pyReplace urlHopkinsDatasets "#VAR1#" "confirmed" from rfl]
  rw [hopkins_splice]
  decide

set_option maxRecDepth 4096 in
theorem hopkins_confirmed_no_placeholder :
    listContains "#VAR1#".data getUrlHopkinsGlobalConfirmedCases.data = false := by
  rw [show getUrlHopkinsGlobalConfirmedCases.data =
        (pyReplace urlHopkinsDatasets "#VAR1#" "confirmed").data from rfl]
  rw [hopkins_splice]
  decide

/-- The second `replace` performed by `downloadHopkinsDataset` is a no-op:
the URL it starts from has no placeholder left, whatever `kind` is. -/
theorem hopkins_replace_noop (kind : String) :
    pyReplace getUrlHopkinsGlobalConfirmedCases "#VAR1#" kind =
      getUrlHopkinsGlobalConfirmedCases :=
  pyReplace_eq_self _ _ _ hopkins_confirmed_no_placeholder

/-- Part of the Parana URL template before the `#VAR1#` placeholder. -/
def preP : String := "https://www.saude.pr.gov.br/sites/default/arquivos_restritos/files/documento/"

/-- Part of the Parana URL template between the two placeholders. -/
def midP : String := "/informe_epidemiologico_"

/-- Part of the Parana URL template after the `#VAR2#` placeholder. -/
def sufP : String := "_geral.csv"

set_option maxRecDepth 4096 in
theorem parana_splice (y t : String)
    (hy : ∀ c ∈ y.data, c ≠ '#') :
    (pyReplace (pyReplace urlParanaDatasetInitial "#VAR1#" y) "#VAR2#" t).data =
      preP.data ++ y.data ++ (midP.data ++ t.data ++ sufP.data) := by
  have hd : urlParanaDatasetInitial.data =
      preP.data ++ ("#VAR1#".data ++ (midP.data ++ ("#VAR2#".data ++ sufP.data))) := rfl
  have hinner : (pyReplace urlParanaDatasetInitial "#VAR1#" y).data =
      preP.data ++ (y.data ++ (midP.data ++ ("#VAR2#".data ++ sufP.data))) := by
    unfold pyReplace
    rw [hd]
    rw [replaceAll_append_of_no_match _ _ _ _ (by decide)]
    rw [show ("#VAR1#".data : List Char) = '#' :: "VAR1#".data from rfl]
    rw [replaceAll_head_match]
    rw [replaceAll_of_listContains_false _ _ _ (by decide)]
  rw [show (pyReplace (pyReplace urlParanaDatasetInitial "#VAR1#" y) "#VAR2#" t).data =
        replaceAll "#VAR2#".data t.data
          (pyReplace urlParanaDatasetInitial "#VAR1#" y).data from rfl]
  rw [hinner]
  have hassoc : preP.data ++ (y.data ++ (midP.data ++ ("#VAR2#".data ++ sufP.data))) =
      (preP.data ++ y.data ++ midP.data) ++ ("#VAR2#".data ++ sufP.data) := by
    simp [List.append_assoc]
  rw [hassoc]
  have hpre : ∀ c ∈ preP.data, c ≠ '#' := by decide
  have hmid : ∀ c ∈ midP.data, c ≠ '#' := by decide
  have hA : ∀ c ∈ preP.data ++ y.data ++ midP.data, c ≠ '#' := by
    intro c hc
    rcases List.mem_append.mp hc with hc' | hc'
    · rcases List.mem_append.mp hc' with hc'' | hc''
      · exact hpre c hc''
      · exact hy c hc''
    · exact hmid c hc'
  rw [show ("#VAR2#".data : List Char) = '#' :: "VAR2#".data from rfl]
  rw [replaceAll_append_of_no_match _ _ _ _
    (no_match_of_no_hash "VAR2#".data _ _ hA)]
  rw [replaceAll_head_match]
  rw [replaceAll_of_listContains_false _ _ _ (by decide)]
  simp [List.append_assoc]

set_option maxRecDepth 4096 in
theorem parana_resolved_no_hash (y t : String)
    (hy : ∀ c ∈ y.data, c ≠ '#') (ht : ∀ c ∈ t.data, c ≠ '#') :
    ∀ c ∈ (pyReplace (pyReplace urlParanaDatasetInitial "#VAR1#" y) "#VAR2#" t).data,
      c ≠ '#' := by
  have hpre : ∀ c ∈ preP.data, c ≠ '#' := by decide
  have hmid : ∀ c ∈ midP.data, c ≠ '#' := by decide
  have hsuf : ∀ c ∈ sufP.data, c ≠ '#' := by decide
  intro c hc
  rw [parana_splice y t hy] at hc
  rcases List.mem_append.mp hc with hc' | hc'
  · rcases List.mem_append.mp hc' with hc'' | hc''
    · exact hpre c hc''
    · exact hy c hc''
  · rcases List.mem_append.mp hc' with hc'' | hc''
    · rcases List.mem_append.mp hc'' with hc3 | hc3
      · exact hmid c hc3
      · exact ht c hc3
    · exact hsuf c hc''

theorem downloadDataset_fst (s : State) (url d name : String) (ow : Bool) :
    (downloadDataset s url d name ow).1 = d ++ "/" ++ name := rfl

theorem downloadDataset_preserves (s : State) (url d name : String) (ow : Bool) :
    (downloadDataset s url d name ow).2.urlParanaDataset = s.urlParanaDataset ∧
    (downloadDataset s url d name ow).2.datasetsDir = s.datasetsDir ∧
    (downloadDataset s url d name ow).2.warnings = s.warnings := by
  unfold downloadDataset
  dsimp only
  split <;> split <;> simp

theorem downloadDataset_download (s : State) (url d name : String) (ow : Bool)
    (hres : (if d ≠ "" then d else s.datasetsDir) = d)
    (habs : s.files.contains (d ++ "/" ++ name) = false) :
    (downloadDataset s url d name ow).2.requests = url :: s.requests ∧
    (downloadDataset s url d name ow).2.files = (d ++ "/" ++ name) :: s.files := by
  unfold downloadDataset
  dsimp only
  set s1 : State := if !checkDatasetDir s d then { s with dirs := d :: s.dirs } else s
    with hs1
  have hfile : s1.files = s.files := by rw [hs1]; split <;> rfl
  have hds : s1.datasetsDir = s.datasetsDir := by rw [hs1]; split <;> rfl
  have hreq : s1.requests = s.requests := by rw [hs1]; split <;> rfl
  have hcd : checkDataset s1 name d = false := by
    unfold checkDataset
    dsimp only
    rw [hds, hfile, hres, habs]
  rw [hcd]
  simp [hfile, hreq]

theorem downloadDataset_skip (s : State) (url d name : String)
    (hres : (if d ≠ "" then d else s.datasetsDir) = d)
    (hpres : s.files.contains (d ++ "/" ++ name) = true) :
    (downloadDataset s url d name false).2.requests = s.requests ∧
    (downloadDataset s url d name false).2.files = s.files := by
  unfold downloadDataset
  dsimp only
  set s1 : State := if !checkDatasetDir s d then { s with dirs := d :: s.dirs } else s
    with hs1
  have hfile : s1.files = s.files := by rw [hs1]; split <;> rfl
  have hds : s1.datasetsDir = s.datasetsDir := by rw [hs1]; split <;> rfl
  have hreq : s1.requests = s.requests := by rw [hs1]; split <;> rfl
  have hcd : checkDataset s1 name d = true := by
    unfold checkDataset
    dsimp only
    rw [hds, hfile, hres, hpres]
  rw [hcd]
  simp [hfile, hreq]

theorem ge_cutoff (now : DateTime) :
    DateTime.ge (now.replace now.hour now.minute now.second now.microsecond)
      (now.replace 15 0 0 0) = decide (15 ≤ now.hour) := by
  unfold DateTime.replace DateTime.ge
  dsimp only
  simp only [if_pos rfl]
  by_cases h15 : now.hour = 15
  · simp only [h15, if_pos rfl]
    by_cases hm : now.minute = 0
    · simp only [hm, if_pos rfl]
      by_cases hs : now.second = 0
      · simp only [hs, if_pos rfl]
        exact decide_eq_decide.mpr (by omega)
      · rw [if_neg hs]
        exact decide_eq_decide.mpr (by omega)
    · rw [if_neg hm]
      exact decide_eq_decide.mpr (by omega)
  · rw [if_neg h15]
    exact decide_eq_decide.mpr (by omega)

/-- C6: for every URL, directory and file name, `downloadDataset` returns
the resolved local path `dirToSave ++ "/" ++ csvFileName` in every
modelled (non-error) case: freshly downloaded, already present and
skipped, or overwritten. -/
theorem c6_downloadDataset_returns_path (s : State)
    (url dirToSave csvFileName : String) (overwrite : Bool) :
    (downloadDataset s url dirToSave csvFileName overwrite).1 =
      dirToSave ++ "/" ++ csvFileName := rfl

/-- C8: `checkDatasetDir` and `checkDataset` are pure predicates of the
state (they are `Bool`-valued functions and return no changed state, which
is how the embedding renders the side-effect-free Python bodies), and an
empty (falsy) directory argument falls back to the process-wide default
directory: `checkDatasetDir s ""` decides existence of the default
directory and `checkDataset s name ""` decides existence of the file
inside the default directory. -/
theorem c8_check_predicates_default_fallback (s : State) (name : String) :
    checkDatasetDir s "" = s.dirs.contains s.datasetsDir ∧
    checkDataset s name "" = s.files.contains (s.datasetsDir ++ "/" ++ name) := by
  constructor <;> rfl

/-- C10: with identical explicit arguments the Paranavai-region fetch and
the Parana-cities fetch are one and the same operation (in particular they
resolve the same remote URL, substituting `parana_cities_with_ibge_code`
into the same template), and the two differ only in their default local
file name. -/
theorem c10_paranavai_same_remote_resource :
    (∀ (s : State) (csvFileName dirToSave : String) (overwrite : Bool),
        downloadParanavaiRegionCitiesWithIBGECodeDataset s csvFileName dirToSave overwrite =
          downloadParanaCitiesWithIBGECodeDataset s csvFileName dirToSave overwrite) ∧
    defaultParanavaiRegionCitiesCsvFileName ≠ defaultParanaCitiesCsvFileName := by
  exact ⟨fun s c d o => rfl, by decide⟩

/-- C3: with no explicit date, the target date is resolved against the
fixed 15:00 cutoff: any current moment at or after 15:00 (equivalently,
`15 ≤ hour`) resolves to today, and any moment before 15:00 resolves to
yesterday. -/
theorem c3_cutoff_date_resolution (now : DateTime) :
    (15 ≤ now.hour →
      resolveParanaFragments now "" = (strftimeYM now.date, strftimeDMY now.date)) ∧
    (now.hour < 15 →
      resolveParanaFragments now "" =
        (strftimeYM now.date, strftimeDMY now.subDay.date)) := by
  have hge := ge_cutoff now
  constructor <;> intro h
  · unfold resolveParanaFragments
    rw [if_neg (by simp)]
    dsimp only
    rw [hge, if_pos (by simpa using h)]
  · unfold resolveParanaFragments
    rw [if_neg (by simp)]
    dsimp only
    rw [hge, if_neg (by simp; omega)]

/-- Witness for C3 at concrete moments: exactly 15:00 resolves to today,
one second before the cutoff (14:59:59) resolves to yesterday. -/
theorem c3_cutoff_date_resolution_witness :
    resolveParanaFragments ⟨⟨2021, 3, 5⟩, 15, 0, 0, 0⟩ "" =
      (strftimeYM ⟨2021, 3, 5⟩, strftimeDMY ⟨2021, 3, 5⟩) ∧
    resolveParanaFragments ⟨⟨2021, 3, 5⟩, 14, 59, 59, 0⟩ "" =
      (strftimeYM ⟨2021, 3, 5⟩,
        strftimeDMY (DateTime.subDay ⟨⟨2021, 3, 5⟩, 14, 59, 59, 0⟩).date) :=
  ⟨(c3_cutoff_date_resolution ⟨⟨2021, 3, 5⟩, 15, 0, 0, 0⟩).1 (by decide),
   (c3_cutoff_date_resolution ⟨⟨2021, 3, 5⟩, 14, 59, 59, 0⟩).2 (by decide)⟩

/-- C2 (code bug): on 2021-03-01 at 10:00 (before the cutoff) the code
resolves the target date to yesterday, 2021-02-28, yet builds the
year-month fragment from today: it produces `"2021-03"` together with day
fragment `"28_02_2021"`, while the year-month of the resolved target date
is `"2021-02"`.  The two URL fragments are therefore not both derived
from the resolved target date. -/
theorem c2_year_month_not_from_target_date :
    resolveParanaFragments ⟨⟨2021, 3, 1⟩, 10, 0, 0, 0⟩ "" =
      ("2021-03", "28_02_2021") ∧
    strftimeYM (Date.pred ⟨2021, 3, 1⟩) = "2021-02" := by decide

/-- The URL stored by a `downloadParanaDataset` call is exactly the result
of substituting that call's resolved fragments into the previously stored
template; the trailing `downloadDataset` step never touches it. -/
theorem downloadParana_url (s : State) (now : DateTime)
    (csv tDate dir : String) (w ow : Bool) :
    (downloadParanaDataset s now csv tDate dir w ow).2.urlParanaDataset =
      (setUrlParanaDataset s (resolveParanaFragments now tDate).1
        (resolveParanaFragments now tDate).2).urlParanaDataset := by
  unfold downloadParanaDataset
  dsimp only
  exact (downloadDataset_preserves _ _ _ _ _).1

set_option maxRecDepth 8192 in
/-- C4: passing the explicit date string `"05/03/2021"` to the regional
report fetch resolves a stored URL containing the year-month fragment
`"2021-03"` and the day fragment `"05_03_2021"`. -/
theorem c4_explicit_date_fragments_in_url :
    listContains "2021-03".data
      (downloadParanaDataset initState ⟨⟨2021, 3, 5⟩, 12, 0, 0, 0⟩
        defaultParanaCsvFileName "05/03/2021" "" false false).2.urlParanaDataset.data
      = true ∧
    listContains "05_03_2021".data
      (downloadParanaDataset initState ⟨⟨2021, 3, 5⟩, 12, 0, 0, 0⟩
        defaultParanaCsvFileName "05/03/2021" "" false false).2.urlParanaDataset.data
      = true := by
  have hfrag : resolveParanaFragments ⟨⟨2021, 3, 5⟩, 12, 0, 0, 0⟩ "05/03/2021" =
      ("2021-03", "05_03_2021") := by decide
  have hr : (downloadParanaDataset initState ⟨⟨2021, 3, 5⟩, 12, 0, 0, 0⟩
      defaultParanaCsvFileName "05/03/2021" "" false false).2.urlParanaDataset =
      (setUrlParanaDataset initState "2021-03" "05_03_2021").urlParanaDataset := by
    rw [downloadParana_url, hfrag]
  have hset : (setUrlParanaDataset initState "2021-03" "05_03_2021").urlParanaDataset =
      pyReplace (pyReplace urlParanaDatasetInitial "#VAR1#" "2021-03")
        "#VAR2#" "05_03_2021" := rfl
  have hdata := parana_splice "2021-03" "05_03_2021" (by decide)
  rw [hr, hset]
  constructor <;> (rw [hdata]; decide)

set_option maxRecDepth 8192 in
/-- C1 (code bug): `downloadHopkinsDataset` with `kind = "deaths"` issues
its network request for the already-resolved confirmed-cases URL: the
replace of `#VAR1#` by the kind is a no-op because the starting URL
`getUrlHopkinsGlobalConfirmedCases` contains no placeholder.  The
requested URL does not contain `"deaths"`; it contains `"confirmed"`. -/
theorem c1_kind_never_substituted :
    (downloadHopkinsDataset initState ⟨⟨2021, 3, 5⟩, 12, 0, 0, 0⟩
      defaultHopkinsCsvFileName "deaths" "" false false).2.requests =
      [getUrlHopkinsGlobalConfirmedCases] ∧
    listContains "deaths".data getUrlHopkinsGlobalConfirmedCases.data = false ∧
    listContains "confirmed".data getUrlHopkinsGlobalConfirmedCases.data = true := by
  refine ⟨?_, ?_, ?_⟩
  · unfold downloadHopkinsDataset
    dsimp only
    rw [if_neg (by decide), if_pos (by decide)]
    rw [hopkins_replace_noop]
    have h := downloadDataset_download initState getUrlHopkinsGlobalConfirmedCases
      datasetsDirInitial (defaultHopkinsCsvFileName ++ "deaths" ++ ".csv") false
      (by decide) (by decide)
    simpa using h.1
  · rw [show getUrlHopkinsGlobalConfirmedCases.data =
        (pyReplace urlHopkinsDatasets "#VAR1#" "confirmed").data from rfl]
    rw [hopkins_splice]
    decide
  · rw [show getUrlHopkinsGlobalConfirmedCases.data =
        (pyReplace urlHopkinsDatasets "#VAR1#" "confirmed").data from rfl]
    rw [hopkins_splice]
    decide

/-- The directory the download functions resolve (explicit argument if
non-empty, else the class default) is a fixpoint of the fallback rule
applied again by `checkDataset` inside `downloadDataset`. -/
theorem resolved_dir_fix (s : State) (dir : String) :
    (if (if dir ≠ "" then dir else s.datasetsDir) ≠ "" then
        (if dir ≠ "" then dir else s.datasetsDir)
      else s.datasetsDir) = (if dir ≠ "" then dir else s.datasetsDir) := by
  by_cases hd : dir = ""
  · simp only [hd]
    by_cases he : s.datasetsDir = "" <;> simp [he]
  · simp [hd]

/-- C7: for every kind outside {confirmed, deaths, recovered} (after
lowercasing), `downloadHopkinsDataset` does not abort: it surfaces the
warning, still performs the download (one network request, provided the
target file is absent), returns the usual path, and leaves the kind
unsubstituted — the requested URL is the kind-independent
`getUrlHopkinsGlobalConfirmedCases`. -/
theorem c7_invalid_kind_warns_and_proceeds (s : State) (now : DateTime)
    (csvFileName kind dirToSave : String) (overwrite : Bool)
    (hk1 : pyLower kind ≠ "confirmed")
    (hk2 : pyLower kind ≠ "deaths")
    (hk3 : pyLower kind ≠ "recovered")
    (habs : s.files.contains ((if dirToSave ≠ "" then dirToSave else s.datasetsDir) ++
      "/" ++ (csvFileName ++ ".csv")) = false) :
    (downloadHopkinsDataset s now csvFileName kind dirToSave false overwrite).2.warnings =
      s.warnings + 1 ∧
    (downloadHopkinsDataset s now csvFileName kind dirToSave false overwrite).2.requests =
      getUrlHopkinsGlobalConfirmedCases :: s.requests ∧
    (downloadHopkinsDataset s now csvFileName kind dirToSave false overwrite).1 =
      (if dirToSave ≠ "" then dirToSave else s.datasetsDir) ++ "/" ++
        (csvFileName ++ ".csv") := by
  have hres : (if (if dirToSave ≠ "" then dirToSave else s.datasetsDir) ≠ "" then
      (if dirToSave ≠ "" then dirToSave else s.datasetsDir)
    else ({ s with warnings := s.warnings + 1 } : State).datasetsDir) =
      (if dirToSave ≠ "" then dirToSave else s.datasetsDir) :=
    resolved_dir_fix s dirToSave
  have hdl := downloadDataset_download { s with warnings := s.warnings + 1 }
    getUrlHopkinsGlobalConfirmedCases (if dirToSave ≠ "" then dirToSave else s.datasetsDir)
    (csvFileName ++ ".csv") overwrite hres habs
  have hpr := downloadDataset_preserves { s with warnings := s.warnings + 1 }
    getUrlHopkinsGlobalConfirmedCases (if dirToSave ≠ "" then dirToSave else s.datasetsDir)
    (csvFileName ++ ".csv") overwrite
  refine ⟨?_, ?_, ?_⟩
  · unfold downloadHopkinsDataset
    dsimp only
    rw [if_neg hk1, if_neg hk2, if_neg hk3, hopkins_replace_noop]
    exact hpr.2.2
  · unfold downloadHopkinsDataset
    dsimp only
    rw [if_neg hk1, if_neg hk2, if_neg hk3, hopkins_replace_noop]
    exact hdl.1
  · unfold downloadHopkinsDataset
    dsimp only
    rw [if_neg hk1, if_neg hk2, if_neg hk3, hopkins_replace_noop]
    exact downloadDataset_fst _ _ _ _ _

/-- Witness for C7 with the unrecognized kind `"cases"` from a fresh
state: warning counted, one network request with the confirmed URL, path
returned. -/
theorem c7_invalid_kind_witness :
    (downloadHopkinsDataset initState ⟨⟨2021, 3, 5⟩, 12, 0, 0, 0⟩
      "hopkins_global_" "cases" "" false false).2.warnings = initState.warnings + 1 ∧
    (downloadHopkinsDataset initState ⟨⟨2021, 3, 5⟩, 12, 0, 0, 0⟩
      "hopkins_global_" "cases" "" false false).2.requests =
      getUrlHopkinsGlobalConfirmedCases :: initState.requests ∧
    (downloadHopkinsDataset initState ⟨⟨2021, 3, 5⟩, 12, 0, 0, 0⟩
      "hopkins_global_" "cases" "" false false).1 =
      (if ("" : String) ≠ "" then "" else initState.datasetsDir) ++ "/" ++
        ("hopkins_global_" ++ ".csv") :=
  c7_invalid_kind_warns_and_proceeds initState ⟨⟨2021, 3, 5⟩, 12, 0, 0, 0⟩
    "hopkins_global_" "cases" "" false (by decide) (by decide) (by decide) (by decide)

/-- C5 counterexample: with the empty directory argument the existence
check falls back to the default directory while the file is written at
`"/f.csv"`, so calling `downloadDataset` twice with `overwrite = false`
performs TWO network calls (not one), even though both calls return the
same path. -/
theorem c5_empty_dir_two_network_calls :
    (downloadDataset (downloadDataset { initState with dirs := [datasetsDirInitial] }
        "u" "" "f.csv" false).2 "u" "" "f.csv" false).2.requests.length = 2 ∧
    (downloadDataset (downloadDataset { initState with dirs := [datasetsDirInitial] }
        "u" "" "f.csv" false).2 "u" "" "f.csv" false).1 =
      (downloadDataset { initState with dirs := [datasetsDirInitial] }
        "u" "" "f.csv" false).1 := by decide

/-- C5 (amended): for every URL, NON-empty directory and file name, from
any state where the target file is absent, calling `downloadDataset`
twice with `overwrite = false` performs exactly one network call — the
first call issues the single request, the second call re-fetches nothing
— and the second call returns the same path as the first. -/
theorem c5_second_call_skips_fetch (s : State) (url dirToSave csvFileName : String)
    (hdir : dirToSave ≠ "")
    (habs : s.files.contains (dirToSave ++ "/" ++ csvFileName) = false) :
    (downloadDataset (downloadDataset s url dirToSave csvFileName false).2
        url dirToSave csvFileName false).1 =
      (downloadDataset s url dirToSave csvFileName false).1 ∧
    (downloadDataset (downloadDataset s url dirToSave csvFileName false).2
        url dirToSave csvFileName false).2.requests =
      (downloadDataset s url dirToSave csvFileName false).2.requests ∧
    (downloadDataset s url dirToSave csvFileName false).2.requests =
      url :: s.requests := by
  have h1 := downloadDataset_download s url dirToSave csvFileName false
    (if_pos hdir) habs
  have hds := (downloadDataset_preserves s url dirToSave csvFileName false).2.1
  have hpres : (downloadDataset s url dirToSave csvFileName false).2.files.contains
      (dirToSave ++ "/" ++ csvFileName) = true := by
    rw [h1.2]
    simp
  have h2 := downloadDataset_skip (downloadDataset s url dirToSave csvFileName false).2
    url dirToSave csvFileName (by rw [if_pos hdir]) hpres
  exact ⟨rfl, h2.1, h1.1⟩

/-- Witness for C5 (amended): concrete fresh state, directory `"d"`,
file `"f.csv"`: one request total, same path from both calls. -/
theorem c5_second_call_skips_fetch_witness :
    (downloadDataset (downloadDataset initState "u" "d" "f.csv" false).2
        "u" "d" "f.csv" false).1 =
      (downloadDataset initState "u" "d" "f.csv" false).1 ∧
    (downloadDataset (downloadDataset initState "u" "d" "f.csv" false).2
        "u" "d" "f.csv" false).2.requests =
      (downloadDataset initState "u" "d" "f.csv" false).2.requests ∧
    (downloadDataset initState "u" "d" "f.csv" false).2.requests =
      "u" :: initState.requests :=
  c5_second_call_skips_fetch initState "u" "d" "f.csv" (by decide) (by decide)

/-- C9: a first `downloadParanaDataset` call on the pristine class state
(with date fragments free of the `'#'` character, as every real date is)
permanently rewrites the stored Parana URL template: afterwards it
contains neither `#VAR1#` nor `#VAR2#`, and any subsequent call — with
any date argument, explicit or cutoff-derived — leaves the stored URL
unchanged, hence resolves exactly the URL of the first call. -/
theorem c9_parana_template_permanently_rewritten (s : State) (now now2 : DateTime)
    (csv tDate dir csv2 tDate2 dir2 : String) (w ow w2 ow2 : Bool)
    (hs : s.urlParanaDataset = urlParanaDatasetInitial)
    (hy : ∀ c ∈ (resolveParanaFragments now tDate).1.data, c ≠ '#')
    (ht : ∀ c ∈ (resolveParanaFragments now tDate).2.data, c ≠ '#') :
    listContains "#VAR1#".data
      (downloadParanaDataset s now csv tDate dir w ow).2.urlParanaDataset.data = false ∧
    listContains "#VAR2#".data
      (downloadParanaDataset s now csv tDate dir w ow).2.urlParanaDataset.data = false ∧
    (downloadParanaDataset (downloadParanaDataset s now csv tDate dir w ow).2
        now2 csv2 tDate2 dir2 w2 ow2).2.urlParanaDataset =
      (downloadParanaDataset s now csv tDate dir w ow).2.urlParanaDataset := by
  have hu1 : (downloadParanaDataset s now csv tDate dir w ow).2.urlParanaDataset =
      pyReplace (pyReplace urlParanaDatasetInitial "#VAR1#"
        (resolveParanaFragments now tDate).1) "#VAR2#"
        (resolveParanaFragments now tDate).2 := by
    rw [downloadParana_url]
    unfold setUrlParanaDataset
    dsimp only
    rw [hs]
  have hnohash := parana_resolved_no_hash (resolveParanaFragments now tDate).1
    (resolveParanaFragments now tDate).2 hy ht
  have hnc1 : listContains "#VAR1#".data
      (downloadParanaDataset s now csv tDate dir w ow).2.urlParanaDataset.data = false := by
    rw [hu1]
    rw [show ("#VAR1#".data : List Char) = '#' :: "VAR1#".data from rfl]
    exact listContains_false_of_no_hash _ _ hnohash
  have hnc2 : listContains "#VAR2#".data
      (downloadParanaDataset s now csv tDate dir w ow).2.urlParanaDataset.data = false := by
    rw [hu1]
    rw [show ("#VAR2#".data : List Char) = '#' :: "VAR2#".data from rfl]
    exact listContains_false_of_no_hash _ _ hnohash
  refine ⟨hnc1, hnc2, ?_⟩
  rw [downloadParana_url]
  unfold setUrlParanaDataset
  dsimp only
  rw [pyReplace_eq_self _ _ _ hnc1, pyReplace_eq_self _ _ _ hnc2]

/-- Witness for C9: a first call with explicit date `"05/03/2021"` from
the fresh state, a second call with a different explicit date
`"06/04/2022"`: the stored URL has no placeholders and the second call
leaves it unchanged. -/
theorem c9_parana_template_permanently_rewritten_witness :
    listContains "#VAR1#".data
      (downloadParanaDataset initState ⟨⟨2021, 3, 5⟩, 12, 0, 0, 0⟩
        "a" "05/03/2021" "" false false).2.urlParanaDataset.data = false ∧
    listContains "#VAR2#".data
      (downloadParanaDataset initState ⟨⟨2021, 3, 5⟩, 12, 0, 0, 0⟩
        "a" "05/03/2021" "" false false).2.urlParanaDataset.data = false ∧
    (downloadParanaDataset (downloadParanaDataset initState ⟨⟨2021, 3, 5⟩, 12, 0, 0, 0⟩
        "a" "05/03/2021" "" false false).2 ⟨⟨2022, 4, 6⟩, 16, 0, 0, 0⟩
        "b" "06/04/2022" "" true true).2.urlParanaDataset =
      (downloadParanaDataset initState ⟨⟨2021, 3, 5⟩, 12, 0, 0, 0⟩
        "a" "05/03/2021" "" false false).2.urlParanaDataset :=
  c9_parana_template_permanently_rewritten initState ⟨⟨2021, 3, 5⟩, 12, 0, 0, 0⟩
    ⟨⟨2022, 4, 6⟩, 16, 0, 0, 0⟩ "a" "05/03/2021" "" "b" "06/04/2022" ""
    false false true true rfl (by decide) (by decide)
